import Mathlib

/-!
# Status service and status client

A shallow embedding of `backend/server.js` (the Express status service),
`frontend/src/App.jsx` (the polling client) and
`frontend/src/components/VersionInfo.jsx` (the view), followed by the
properties proved about them.

JavaScript values are embedded as `JsVal`; an object literal of the source is
the `JsVal.obj` with the same keys in the same order.  What the runtime
supplies (clock, uptime, memory counters, environment variables, timers, the
outcome of a `fetch`) is an explicit argument of the embedded function.
-/

namespace StatusPoc

/-! ## JavaScript values -/

/-- A JavaScript value: the JSON values, `undefined`, and the non-finite
numbers.  Finite numbers are carried as rationals (every finite double is
one; `-0` is `0`). -/
inductive JsVal where
  | undefined
  | null
  | bool (b : Bool)
  | num (q : ℚ)
  | nan
  | infinity (negative : Bool)
  | str (s : String)
  | arr (items : List JsVal)
  | obj (props : List (String × JsVal))

namespace JsVal

/-- JavaScript truthiness (`ToBoolean`): `undefined`, `null`, `false`, `0`,
`NaN` and the empty string are falsy, everything else is truthy. -/
def truthy : JsVal → Bool
  | undefined => false
  | null => false
  | bool b => b
  | num q => decide (q ≠ 0)
  | nan => false
  | infinity _ => true
  | str s => decide (s ≠ "")
  | arr _ => true
  | obj _ => true

/-- The operator `a || b`: `a` when it is truthy, else `b`. -/
def or (a b : JsVal) : JsVal := if a.truthy then a else b

/-- The operator `typeof v`. -/
def typeOf : JsVal → String
  | undefined => "undefined"
  | null => "object"
  | bool _ => "boolean"
  | num _ => "number"
  | nan => "number"
  | infinity _ => "number"
  | str _ => "string"
  | arr _ => "object"
  | obj _ => "object"

/-- The own property `key` of an object value, if it has one. -/
def field? (v : JsVal) (key : String) : Option JsVal :=
  match v with
  | obj props => props.lookup key
  | _ => none

/-- The property read `v.key` for the data keys read by the client (`version`,
`environment`, `timestamp`): it throws a `TypeError` on `null` and
`undefined`, gives the own property of an object, and `undefined` when the
property is missing or `v` is a primitive or an array. -/
def getProp (v : JsVal) (key : String) : Except String JsVal :=
  match v with
  | undefined => .error ("Cannot read properties of undefined (reading " ++ key ++ ")")
  | null => .error ("Cannot read properties of null (reading " ++ key ++ ")")
  | obj props => .ok ((props.lookup key).getD undefined)
  | _ => .ok undefined

mutual
/-- Whether React renders the value when it stands as a child `{v}` of an
element: strings and numbers are rendered as text, booleans, `null` and
`undefined` as nothing, an array item by item; a plain object makes rendering
throw ("Objects are not valid as a React child"). -/
def validChild : JsVal → Bool
  | obj _ => false
  | arr items => validChildren items
  | _ => true
/-- Whether React renders every item of an array child. -/
def validChildren : List JsVal → Bool
  | [] => true
  | v :: vs => v.validChild && validChildren vs
end

mutual
/-- Whether the conversion to a primitive that `new Date(v)` starts with
succeeds.  A primitive is its own result; a parsed object converts through
`Object.prototype.toString` unless an own property `toString`, which is no
function, hides it, and then the conversion throws a `TypeError`; an array
converts by joining the conversions of its items. -/
def convertible : JsVal → Bool
  | obj props => (props.lookup "toString").isNone
  | arr items => convertibleItems items
  | _ => true
/-- Whether every item of an array converts to a primitive. -/
def convertibleItems : List JsVal → Bool
  | [] => true
  | v :: vs => v.convertible && convertibleItems vs
end

end JsVal

/-! ## The status service (`backend/server.js`) -/

/-- ASCII lower-casing, the case folding `toLowerCase` and a case-insensitive
regular expression apply to the ASCII letters of methods and route paths. -/
def asciiLower (s : String) : String := String.mk (s.data.map Char.toLower)

/-- ASCII upper-casing (`toUpperCase` on an HTTP method token). -/
def asciiUpper (s : String) : String := String.mk (s.data.map Char.toUpper)

/-- What is fixed for the life of one service process: the two environment
variables the module reads (absent when unset) and the constants of
`process`. -/
structure Config where
  npm_package_version : Option String
  NODE_ENV : Option String
  pid : Nat
  nodeVersion : String
  platform : String
  arch : String

/-- The object returned by `process.memoryUsage()`. -/
structure MemoryUsage where
  rss : Nat
  heapTotal : Nat
  heapUsed : Nat
  external : Nat
  arrayBuffers : Nat

/-- What a handler reads from the running process while it answers one
request: `Date.now()`, `new Date().toISOString()`, `process.uptime()` and
`process.memoryUsage()`. -/
structure Snapshot where
  dateNow : Int
  isoNow : String
  uptime : ℚ
  memoryUsage : MemoryUsage

/-- An error passed to the error-handling middleware: `err.message`,
`err.stack` and `err.status` (absent when the error carries none). -/
structure JsError where
  message : JsVal
  stack : JsVal
  status : Option Nat

/-- A request as the application sees it: `req.method`, `req.path` (the
pathname, without the query string), and what the body parsers of lines 28-29
make of its body: `parseError` is the error `express.json()` or
`express.urlencoded()` passes to `next` (a malformed, oversized or wrongly
encoded body), and `none` when they let the request through, as they do for
every request without a body. -/
structure Request where
  method : String
  path : String
  parseError : Option JsError := none

/-- The status code and the value handed to `res.json`; `body` is `undefined`
when the response is ended without one. -/
structure Response where
  status : Nat
  body : JsVal

/-- The expression `process.env.X || fallback`: the fallback replaces an unset
or empty variable. -/
def envOr (v : Option String) (fallback : String) : String :=
  match v with
  | some s => if s = "" then fallback else s
  | none => fallback

/-- Line 9: `const NODE_ENV = process.env.NODE_ENV || 'development'`. -/
def NODE_ENV (cfg : Config) : String := envOr cfg.NODE_ENV "development"

/-- The expression `process.env.npm_package_version || '0.1.0'`. -/
def packageVersion (cfg : Config) : String := envOr cfg.npm_package_version "0.1.0"

/-- The value of `process.memoryUsage()` as a JavaScript object. -/
def MemoryUsage.toJs (m : MemoryUsage) : JsVal :=
  .obj [("rss", .num m.rss), ("heapTotal", .num m.heapTotal), ("heapUsed", .num m.heapUsed),
    ("external", .num m.external), ("arrayBuffers", .num m.arrayBuffers)]

/-- Lines 42-54: the handler of `app.get('/health', ...)`. -/
def healthHandler (cfg : Config) (snap : Snapshot) : Response :=
  let healthData : JsVal := .obj [
    ("status", .str "ok"),
    ("timestamp", .num snap.dateNow),
    ("version", .str (packageVersion cfg)),
    ("environment", .str (NODE_ENV cfg)),
    ("uptime", .num snap.uptime),
    ("memory", snap.memoryUsage.toJs),
    ("pid", .num cfg.pid)]
  { status := 200, body := healthData }

/-- Lines 57-77: the handler of `app.get('/api/status', ...)`. -/
def statusHandler (cfg : Config) (snap : Snapshot) : Response :=
  let statusData : JsVal := .obj [
    ("name", .str "merge-guard-demo-backend"),
    ("version", .str (packageVersion cfg)),
    ("environment", .str (NODE_ENV cfg)),
    ("timestamp", .str snap.isoNow),
    ("endpoints", .obj [
      ("health", .str "/health"),
      ("status", .str "/api/status"),
      ("info", .str "/api/info")]),
    ("features", .arr [
      .str "GitHub Safe Merge & Deploy Workflow",
      .str "Merge state validation",
      .str "Automated releases",
      .str "Health monitoring"])]
  { status := 200, body := statusData }

/-- Lines 80-93: the handler of `app.get('/api/info', ...)`. -/
def infoHandler (cfg : Config) (_snap : Snapshot) : Response :=
  let infoData : JsVal := .obj [
    ("application", .str "GitHub Safe Merge & Deploy Workflow Demo"),
    ("description", .str "A production-ready GitHub project demonstrating secure PR merge and deployment workflows"),
    ("repository", .str "https://github.com/your-org/dev-workflow-poc"),
    ("documentation", .str "/docs"),
    ("version", .str (packageVersion cfg)),
    ("nodeVersion", .str cfg.nodeVersion),
    ("platform", .str cfg.platform),
    ("architecture", .str cfg.arch)]
  { status := 200, body := infoData }

/-- Lines 96-106: the handler of `app.get('/', ...)`; `res.json` without
`res.status` answers with the default status 200. -/
def rootHandler (cfg : Config) (_snap : Snapshot) : Response :=
  { status := 200,
    body := .obj [
      ("message", .str "GitHub Safe Merge & Deploy Workflow - Backend API"),
      ("version", .str (packageVersion cfg)),
      ("endpoints", .obj [
        ("health", .str "/health"),
        ("status", .str "/api/status"),
        ("info", .str "/api/info")])] }

/-- Lines 109-120: the 404 handler, the last middleware without an error
argument. -/
def notFoundHandler (req : Request) : Response :=
  { status := 404,
    body := .obj [
      ("error", .str "Not Found"),
      ("message", .str ("Endpoint " ++ req.method ++ " " ++ req.path ++ " not found")),
      ("availableEndpoints", .arr [
        .str "GET /",
        .str "GET /health",
        .str "GET /api/status",
        .str "GET /api/info"])] }

/-- Lines 123-137: the error-handling middleware. -/
def errorHandler (cfg : Config) (snap : Snapshot) (err : JsError) : Response :=
  let errorResponse : List (String × JsVal) := [
    ("error", .str "Internal Server Error"),
    ("message", if NODE_ENV cfg = "development" then err.message else .str "Something went wrong"),
    ("timestamp", .str snap.isoNow)]
  let errorResponse :=
    if NODE_ENV cfg = "development" then errorResponse ++ [("stack", err.stack)] else errorResponse
  let status := match err.status with
    | some n => if n = 0 then 500 else n
    | none => 500
  { status := status, body := .obj errorResponse }

/-- The routes in registration order (`app.get(path, handler)`, lines 42, 57,
80 and 96). -/
def routeTable : List (String × (Config → Snapshot → Response)) :=
  [("/health", healthHandler), ("/api/status", statusHandler),
   ("/api/info", infoHandler), ("/", rootHandler)]

/-- Whether a route registered with `app.get` handles the method: Express
lower-cases the method and lets a GET route answer HEAD as well. -/
def handlesMethod (method : String) : Bool :=
  asciiLower method = "get" || asciiLower method = "head"

/-- Whether a route path matches the request path under Express's default
routing (`case sensitive routing` and `strict routing` both off): letters are
compared without case and one trailing slash is optional. -/
def pathMatches (routePath reqPath : String) : Bool :=
  let r := (asciiLower routePath).data
  let base := if r.getLast? = some '/' then r.dropLast else r
  let p := (asciiLower reqPath).data
  p = base || p = base ++ ['/']

/-- The first registered route that takes the request. -/
def matchRoute (req : Request) : Option (Config → Snapshot → Response) :=
  (routeTable.find? fun r => handlesMethod req.method && pathMatches r.1 req.path).map (·.2)

/-- The application as a function of the request, in the order of
`server.js`.  `helmet`, `morgan` and the timing logger leave status and body
to what follows.  `cors` (line 15), with its default options, ends every
OPTIONS request itself with status 204.  When a body parser (lines 28-29)
passes an error to `next`, Express skips the routes and the 404 handler and
the error-handling middleware answers.  Otherwise the routes are tried in
registration order, and the 404 handler takes what no route took. -/
def app (cfg : Config) (snap : Snapshot) (req : Request) : Response :=
  if asciiUpper req.method = "OPTIONS" then
    { status := 204, body := .undefined }
  else
    match req.parseError with
    | some err => errorHandler cfg snap err
    | none =>
      match matchRoute req with
      | some handler => handler cfg snap
      | none => notFoundHandler req

/-! ## The view (`frontend/src/components/VersionInfo.jsx`) -/

/-- The element tree `VersionInfo` returns, up to its static markup: one
constructor for each `return` of the component, holding the values the JSX
interpolates. -/
inductive View where
  /-- Lines 5-14: the pulsing grey bars. -/
  | loadingPlaceholder
  /-- Lines 18-34: the red box headed "Error loading version info", with
  `{error}` under the heading. -/
  | errorBanner (error : JsVal)
  /-- Lines 38-54: the yellow box headed "Version info unavailable". -/
  | unavailable
  /-- Lines 61-91: the four rows Frontend Version, Backend Version,
  Environment and Build Time; `timestamp` is the value whose local date and
  time `formatBuildTime` writes out. -/
  | report (frontendVersion backendVersion environment timestamp : JsVal)

/-- A JSX child `{v}`: the value when React renders it, an error when React
throws on it. -/
def reactChild (v : JsVal) : Except String JsVal :=
  if v.validChild then .ok v else .error "Objects are not valid as a React child"

/-- Lines 57-59: `formatBuildTime(timestamp)`, that is
`new Date(timestamp).toLocaleString()`.  The text depends on the locale and
time zone of the browser, so the result stands for it by the value converted;
it is an error when the conversion of `timestamp` to a primitive throws. -/
def formatBuildTime (timestamp : JsVal) : Except String JsVal :=
  if timestamp.convertible then .ok timestamp
  else .error "Cannot convert object to primitive value"

/-- Lines 3-92: the component `VersionInfo({ status, loading, error })`, as
React renders it.  The result is an error, and nothing is rendered, when
evaluating the body throws or React throws on a child of the returned
element. -/
def VersionInfo (status loading error : JsVal) : Except String View :=
  if loading.truthy then
    .ok .loadingPlaceholder
  else if error.truthy then do
    let error ← reactChild error
    .ok (.errorBanner error)
  else if !status.truthy then
    .ok .unavailable
  else do
    let frontendVersion ← status.getProp "version"
    let backendVersion ← status.getProp "version"
    let environment ← status.getProp "environment"
    let timestamp ← status.getProp "timestamp"
    let buildTime ← formatBuildTime timestamp
    let frontendVersion ← reactChild (frontendVersion.or (.str "0.1.0"))
    let backendVersion ← reactChild (backendVersion.or (.str "0.1.0"))
    let environment ← reactChild (environment.or (.str "development"))
    .ok (.report frontendVersion backendVersion environment buildTime)

/-! ## The polling client (`frontend/src/App.jsx`) -/

/-- The three state variables of `App` (lines 5-7). -/
structure AppState where
  backendStatus : JsVal
  loading : JsVal
  error : JsVal

/-- The initial values given to `useState`: `null`, `true`, `null`. -/
def AppState.initial : AppState :=
  { backendStatus := .null, loading := .bool true, error := .null }

/-- How one call of `fetch` followed by `response.json()` turns out.  An
error is carried by its `message`. -/
inductive FetchOutcome where
  /-- The promise returned by `fetch` rejects. -/
  | rejected (message : String)
  /-- The promise resolves to a response with this status; `json` is what
  `response.json()` gives if it is called: the parsed body, or the error it
  rejects with. -/
  | responded (status : Nat) (json : Except String JsVal)

/-- The getter `response.ok`: the status is in the range 200-299. -/
def responseOk (status : Nat) : Bool := 200 ≤ status && status ≤ 299

/-- Lines 14-23, the `try` block of `fetchBackendStatus`: the state once the
block is left, and the message of the error thrown out of it, if any. -/
def fetchTry (outcome : FetchOutcome) (s : AppState) : AppState × Option String :=
  let s := { s with loading := .bool true }
  let s := { s with error := .null }
  match outcome with
  | .rejected message => (s, some message)
  | .responded status json =>
    if !responseOk status then
      (s, some ("HTTP error! status: " ++ toString status))
    else
      match json with
      | .error message => (s, some message)
      | .ok data => ({ s with backendStatus := data }, none)

/-- Lines 12-30: one run of `fetchBackendStatus`, as the state it leaves
behind when no other run updates the state in between: the `try` block, the
`catch` clause when the block threw, then the `finally` clause. -/
def fetchBackendStatus (outcome : FetchOutcome) (s : AppState) : AppState :=
  let (s, thrown) := fetchTry outcome s
  let s := match thrown with
    | some message => { s with error := .str message }
    | none => s
  { s with loading := .bool false }

/-- Lines 14-17: the part of a run of `fetchBackendStatus` before its first
`await`: `setLoading(true)`, `setError(null)`, and the `fetch` is issued. -/
def fetchStart (s : AppState) : AppState :=
  { s with loading := .bool true, error := .null }

/-- Lines 17-29: the part of a run of `fetchBackendStatus` after its `fetch`
has settled, applied to the state of that moment, which other runs may have
updated since `fetchStart`: `setBackendStatus(data)` on success, else
`setError(err.message)` in the `catch` clause, then `setLoading(false)`. -/
def fetchSettle (outcome : FetchOutcome) (s : AppState) : AppState :=
  let s :=
    match outcome with
    | .rejected message => { s with error := .str message }
    | .responded status json =>
      if !responseOk status then
        { s with error := .str ("HTTP error! status: " ++ toString status) }
      else
        match json with
        | .error message => { s with error := .str message }
        | .ok data => { s with backendStatus := data }
  { s with loading := .bool false }

/-- Lines 56-60: what `App` renders through `VersionInfo` in a given state
(the heading and badge around it are static); an error when rendering throws
and nothing is shown. -/
def App (s : AppState) : Except String View :=
  VersionInfo s.backendStatus s.loading s.error

/-! ### The polling timer -/

/-- A repeating timer made by `setInterval`.  Every timer of the page has
`fetchBackendStatus` as its callback. -/
structure Interval where
  id : Nat
  delay : Nat
  due : Nat

/-- The page's event loop: the time in milliseconds, the active timers, the
next timer id, and how many times `fetchBackendStatus` has been called (each
call issues one `fetch`, line 17). -/
structure Page where
  now : Nat
  intervals : List Interval
  nextId : Nat
  fetches : Nat

/-- The call `setInterval(fetchBackendStatus, delay)`: a new timer first due
`delay` milliseconds from now; its id is returned. -/
def setInterval (delay : Nat) (p : Page) : Nat × Page :=
  (p.nextId,
   { p with intervals := p.intervals ++ [{ id := p.nextId, delay := delay, due := p.now + delay }],
            nextId := p.nextId + 1 })

/-- The call `clearInterval(id)`: the timer with that id is no longer active. -/
def clearInterval (id : Nat) (p : Page) : Page :=
  { p with intervals := p.intervals.filter fun t => t.id != id }

/-- One millisecond passes: every active timer that has come due runs its
callback once and is due again one delay later. -/
def tick (p : Page) : Page :=
  let now := p.now + 1
  { p with now := now,
           intervals := p.intervals.map fun t =>
             if t.due ≤ now then { t with due := t.due + t.delay } else t,
           fetches := p.fetches + (p.intervals.filter fun t => t.due ≤ now).length }

/-- The page runs for `ms` milliseconds. -/
def elapse : Nat → Page → Page
  | 0, p => p
  | ms + 1, p => elapse ms (tick p)

/-- Lines 11-37, the effect run when `App` mounts: the initial call of
`fetchBackendStatus`, then `setInterval(fetchBackendStatus, 30000)`; the
timer id is what the cleanup closes over. -/
def mount (p : Page) : Nat × Page :=
  let p := { p with fetches := p.fetches + 1 }
  setInterval 30000 p

/-- Line 38, the effect's cleanup, run when `App` unmounts:
`clearInterval(interval)`. -/
def unmount (interval : Nat) (p : Page) : Page :=
  clearInterval interval p

/-! ## Vocabulary of the statements -/

/-- The request is taken by one of the four routes: its method folds to `get`
or `head`, and its path folds to a route path, with or without one trailing
slash. -/
def Routed (req : Request) : Prop :=
  (asciiLower req.method = "get" ∨ asciiLower req.method = "head") ∧
    asciiLower req.path ∈
      ["/health", "/health/", "/api/status", "/api/status/", "/api/info", "/api/info/", "", "/"]

instance (req : Request) : Decidable (Routed req) := by
  unfold Routed
  infer_instance

/-- The request an entry of `availableEndpoints` advertises: the method before
the first space, the path after it. -/
def parseEndpoint : JsVal → Option Request
  | .str s =>
    match s.data.span (· != ' ') with
    | (method, ' ' :: path) => some { method := String.mk method, path := String.mk path }
    | _ => none
  | _ => none

/-- A production configuration, for the concrete instances below. -/
def productionConfig : Config :=
  { npm_package_version := some "1.2.3", NODE_ENV := some "production", pid := 4242,
    nodeVersion := "v18.17.0", platform := "linux", arch := "x64" }

/-- A configuration with `NODE_ENV` unset, which the service reads as
development. -/
def developmentConfig : Config :=
  { npm_package_version := none, NODE_ENV := none, pid := 4242,
    nodeVersion := "v18.17.0", platform := "linux", arch := "x64" }

/-- A process reading, for the concrete instances below. -/
def sampleSnapshot : Snapshot :=
  { dateNow := 1700000000000, isoNow := "2023-11-14T22:13:20.000Z", uptime := 25 / 2,
    memoryUsage := { rss := 50000000, heapTotal := 20000000, heapUsed := 10000000,
                     external := 1000000, arrayBuffers := 10000 } }

/-- A later reading of the same process. -/
def laterSnapshot : Snapshot :=
  { dateNow := 1700000030000, isoNow := "2023-11-14T22:13:50.000Z", uptime := 85 / 2,
    memoryUsage := { rss := 50000500, heapTotal := 20000000, heapUsed := 10000700,
                     external := 1000000, arrayBuffers := 10000 } }

/-- An error whose message and trace hold a secret and that carries no
`status`. -/
def secretError : JsError :=
  { message := .str "db password is hunter2", stack := .str "Error: db password is hunter2",
    status := none }

/-- An error carrying `status` 400, as the errors of the body parser do. -/
def badRequestError : JsError :=
  { message := .str "Unexpected token", stack := .str "SyntaxError: Unexpected token",
    status := some 400 }

/-- A health report as the service sends it: the body of the health handler
for the production configuration and the sample reading. -/
def sampleReport : JsVal := (healthHandler productionConfig sampleSnapshot).body

/-- A client state holding the sample report, not loading, without error. -/
def reportHeld : AppState :=
  { backendStatus := sampleReport, loading := .bool false, error := .null }

/-- A client state after a failed first cycle: no report, an error message. -/
def errorHeld : AppState :=
  { backendStatus := .null, loading := .bool false, error := .str "Failed to fetch" }

/-- A POST request with a malformed JSON body: the body parser passes on an
error carrying `status` 400. -/
def malformedPost : Request :=
  { method := "POST", path := "/health", parseError := some badRequestError }

/-- A parsed body whose `version` is itself an object. -/
def nestedVersionReport : JsVal := .obj [("version", .obj [("major", .num 1)])]

/-- A freshly loaded page: time zero, no timer, no fetch issued yet. -/
def freshPage : Page := { now := 0, intervals := [], nextId := 1, fetches := 0 }


/-! ## Routing lemmas -/

theorem pathMatches_health (p : String) :
    pathMatches "/health" p
      = (decide (asciiLower p = "/health") || decide (asciiLower p = "/health/")) := by
  have hb : (if (asciiLower "/health").data.getLast? = some '/'
      then (asciiLower "/health").data.dropLast
      else (asciiLower "/health").data) = "/health".data := by decide
  simp only [pathMatches, hb]
  congr 1 <;> (apply Bool.eq_iff_iff.mpr; simp [String.ext_iff])

theorem pathMatches_apiStatus (p : String) :
    pathMatches "/api/status" p
      = (decide (asciiLower p = "/api/status") || decide (asciiLower p = "/api/status/")) := by
  have hb : (if (asciiLower "/api/status").data.getLast? = some '/'
      then (asciiLower "/api/status").data.dropLast
      else (asciiLower "/api/status").data) = "/api/status".data := by decide
  simp only [pathMatches, hb]
  congr 1 <;> (apply Bool.eq_iff_iff.mpr; simp [String.ext_iff])

theorem pathMatches_apiInfo (p : String) :
    pathMatches "/api/info" p
      = (decide (asciiLower p = "/api/info") || decide (asciiLower p = "/api/info/")) := by
  have hb : (if (asciiLower "/api/info").data.getLast? = some '/'
      then (asciiLower "/api/info").data.dropLast
      else (asciiLower "/api/info").data) = "/api/info".data := by decide
  simp only [pathMatches, hb]
  congr 1 <;> (apply Bool.eq_iff_iff.mpr; simp [String.ext_iff])

theorem pathMatches_root (p : String) :
    pathMatches "/" p = (decide (asciiLower p = "") || decide (asciiLower p = "/")) := by
  have hb : (if (asciiLower "/").data.getLast? = some '/'
      then (asciiLower "/").data.dropLast
      else (asciiLower "/").data) = "".data := by decide
  simp only [pathMatches, hb]
  congr 1 <;> (apply Bool.eq_iff_iff.mpr; simp [String.ext_iff])

/-- No route takes a request exactly when it is not `Routed`. -/
theorem matchRoute_eq_none_iff (req : Request) : matchRoute req = none ↔ ¬ Routed req := by
  simp only [matchRoute, Option.map_eq_none', List.find?_eq_none, routeTable, Routed,
    handlesMethod, List.mem_cons, List.mem_singleton, forall_eq_or_imp, forall_eq,
    pathMatches_health, pathMatches_apiStatus, pathMatches_apiInfo, pathMatches_root,
    List.not_mem_nil, Bool.and_eq_true, Bool.or_eq_true, decide_eq_true_eq]
  tauto

/-- A route that takes a request is one of the four registered handlers. -/
theorem matchRoute_some (req : Request) (handler : Config → Snapshot → Response)
    (h : matchRoute req = some handler) :
    handler = healthHandler ∨ handler = statusHandler ∨ handler = infoHandler ∨
      handler = rootHandler := by
  simp only [matchRoute, Option.map_eq_some'] at h
  obtain ⟨r, hr, rfl⟩ := h
  have hmem := List.mem_of_find?_eq_some hr
  simp only [routeTable, List.mem_cons, List.mem_singleton, List.not_mem_nil, or_false] at hmem
  rcases hmem with rfl | rfl | rfl | rfl <;> simp

/-- Each of the four registered handlers answers with status 200. -/
theorem matchRoute_status (req : Request) (handler : Config → Snapshot → Response)
    (h : matchRoute req = some handler) (cfg : Config) (snap : Snapshot) :
    (handler cfg snap).status = 200 := by
  rcases matchRoute_some req handler h with rfl | rfl | rfl | rfl <;> rfl

theorem app_get_health (cfg : Config) (snap : Snapshot) :
    app cfg snap { method := "GET", path := "/health" } = healthHandler cfg snap := by
  have h1 : asciiUpper "GET" ≠ "OPTIONS" := by decide
  have h2 : matchRoute { method := "GET", path := "/health" } = some healthHandler := rfl
  simp [app, h1, h2]

theorem app_get_apiStatus (cfg : Config) (snap : Snapshot) :
    app cfg snap { method := "GET", path := "/api/status" } = statusHandler cfg snap := by
  have h1 : asciiUpper "GET" ≠ "OPTIONS" := by decide
  have h2 : matchRoute { method := "GET", path := "/api/status" } = some statusHandler := rfl
  simp [app, h1, h2]

theorem app_get_apiInfo (cfg : Config) (snap : Snapshot) :
    app cfg snap { method := "GET", path := "/api/info" } = infoHandler cfg snap := by
  have h1 : asciiUpper "GET" ≠ "OPTIONS" := by decide
  have h2 : matchRoute { method := "GET", path := "/api/info" } = some infoHandler := rfl
  simp [app, h1, h2]

theorem app_get_root (cfg : Config) (snap : Snapshot) :
    app cfg snap { method := "GET", path := "/" } = rootHandler cfg snap := by
  have h1 : asciiUpper "GET" ≠ "OPTIONS" := by decide
  have h2 : matchRoute { method := "GET", path := "/" } = some rootHandler := rfl
  simp [app, h1, h2]

/-- A body-parser error sends a request other than OPTIONS to the
error-handling middleware. -/
theorem app_parse_error (cfg : Config) (snap : Snapshot) (req : Request) (err : JsError)
    (hopt : asciiUpper req.method ≠ "OPTIONS") (herr : req.parseError = some err) :
    app cfg snap req = errorHandler cfg snap err := by
  simp [app, hopt, herr]

/-- Among the requests the body parsers let through, the 404 handler answers
exactly those that `cors` does not end and no route takes. -/
theorem app_status_404_iff (cfg : Config) (snap : Snapshot) (req : Request)
    (hbody : req.parseError = none) :
    (app cfg snap req).status = 404 ↔ asciiUpper req.method ≠ "OPTIONS" ∧ ¬ Routed req := by
  unfold app
  by_cases hopt : asciiUpper req.method = "OPTIONS"
  · simp [hopt]
  · simp only [hopt, hbody, if_false, ne_eq, not_false_eq_true, true_and]
    rw [← matchRoute_eq_none_iff]
    cases hm : matchRoute req with
    | none => simp [notFoundHandler]
    | some handler => simp [matchRoute_status req handler hm cfg snap]

/-! ## Properties of the status service -/

/-- C1, as amended: a request that `cors` does not end as a preflight (its
method is not OPTIONS), whose body, if it has one, the body parsers accept
(`parseError` is `none`), and that no route takes (`Routed` fails: the method
is neither GET nor HEAD, or the path is none of the four route paths up to
letter case and one trailing slash) is answered by the 404 handler: status
404, `error` equal to "Not Found", `message` naming the request's method and
path, and the four-entry `availableEndpoints` list. -/
theorem unrouted_request_not_found (cfg : Config) (snap : Snapshot) (req : Request)
    (hopt : asciiUpper req.method ≠ "OPTIONS") (hbody : req.parseError = none)
    (hroute : ¬ Routed req) :
    (app cfg snap req).status = 404 ∧
    (app cfg snap req).body.field? "error" = some (.str "Not Found") ∧
    (app cfg snap req).body.field? "message"
      = some (.str ("Endpoint " ++ req.method ++ " " ++ req.path ++ " not found")) ∧
    (app cfg snap req).body.field? "availableEndpoints"
      = some (.arr [.str "GET /", .str "GET /health", .str "GET /api/status",
          .str "GET /api/info"]) := by
  have hm : matchRoute req = none := (matchRoute_eq_none_iff req).mpr hroute
  have happ : app cfg snap req = notFoundHandler req := by simp [app, hopt, hbody, hm]
  rw [happ]
  refine ⟨rfl, ?_, ?_, ?_⟩ <;> simp [notFoundHandler, JsVal.field?, List.lookup]

/-- C1, instance: `GET /nonexistent` without body, the request of the
repository's test, is not an OPTIONS request, raises no body-parser error, is
taken by no route, and gets the 404 body. -/
theorem unrouted_request_not_found_witness :
    asciiUpper "GET" ≠ "OPTIONS" ∧ ¬ Routed { method := "GET", path := "/nonexistent" } ∧
    (app productionConfig sampleSnapshot { method := "GET", path := "/nonexistent" }).status
      = 404 ∧
    (app productionConfig sampleSnapshot { method := "GET", path := "/nonexistent" }).body.field?
      "message" = some (.str "Endpoint GET /nonexistent not found") :=
  have h := unrouted_request_not_found productionConfig sampleSnapshot
    { method := "GET", path := "/nonexistent" } (by decide) rfl (by decide)
  ⟨by decide, by decide, h.1, h.2.2.1⟩

/-- C1, counterexample to the claim as stated: five requests that are none of
`GET /`, `GET /health`, `GET /api/status`, `GET /api/info` and are not
answered with 404.  `HEAD /health`, `GET /health/` and `GET /HEALTH` are served
by the health route with status 200; `OPTIONS /nonexistent` is ended by `cors`
with status 204; `POST /health` with a malformed JSON body is answered by the
error-handling middleware with the parser error's status 400 and the `error`
field "Internal Server Error". -/
theorem not_found_claim_counterexample :
    (app productionConfig sampleSnapshot { method := "HEAD", path := "/health" }).status = 200 ∧
    (app productionConfig sampleSnapshot { method := "GET", path := "/health/" }).status = 200 ∧
    (app productionConfig sampleSnapshot { method := "GET", path := "/HEALTH" }).status = 200 ∧
    (app productionConfig sampleSnapshot { method := "OPTIONS", path := "/nonexistent" }).status
      = 204 ∧
    ¬ Routed malformedPost ∧
    (app productionConfig sampleSnapshot malformedPost).status = 400 ∧
    (app productionConfig sampleSnapshot malformedPost).body.field? "error"
      = some (.str "Internal Server Error") := by
  refine ⟨rfl, rfl, rfl, rfl, by decide, rfl, rfl⟩

/-- C2: for every configuration and every process reading, `GET /health` (a
request without body, so without body-parser error) is answered with status
200 and a body whose `status` is "ok", whose `timestamp`,
`uptime`, `memory` and `pid` are the values read from the process (numbers,
and an object for `memory`), whose `version` is the package version and whose
`environment` is the mode held in `NODE_ENV`: the environment variable when it
is set and not empty, and "development" otherwise. -/
theorem health_response (cfg : Config) (snap : Snapshot) :
    ∃ body, app cfg snap { method := "GET", path := "/health" } = { status := 200, body := body } ∧
      body.field? "status" = some (.str "ok") ∧
      body.field? "timestamp" = some (.num snap.dateNow) ∧
      body.field? "version" = some (.str (packageVersion cfg)) ∧
      body.field? "environment" = some (.str (NODE_ENV cfg)) ∧
      body.field? "uptime" = some (.num snap.uptime) ∧
      body.field? "memory" = some snap.memoryUsage.toJs ∧
      body.field? "pid" = some (.num cfg.pid) ∧
      (body.field? "timestamp").map JsVal.typeOf = some "number" ∧
      (body.field? "uptime").map JsVal.typeOf = some "number" ∧
      (body.field? "pid").map JsVal.typeOf = some "number" ∧
      (body.field? "memory").map JsVal.typeOf = some "object" ∧
      (∀ mode, cfg.NODE_ENV = some mode → mode ≠ "" →
        body.field? "environment" = some (.str mode)) ∧
      (cfg.NODE_ENV = none ∨ cfg.NODE_ENV = some "" →
        body.field? "environment" = some (.str "development")) := by
  refine ⟨_, app_get_health cfg snap, ?_⟩
  refine ⟨?_, ?_, ?_, ?_, ?_, ?_, ?_, ?_, ?_, ?_, ?_, ?_, ?_⟩
  any_goals simp [healthHandler, JsVal.field?, List.lookup, JsVal.typeOf, MemoryUsage.toJs]
  · intro mode hmode hne
    simp [NODE_ENV, envOr, hmode, hne]
  · rintro (h | h) <;> simp [NODE_ENV, envOr, h]

/-- C2, instance: the production configuration at the sample reading. -/
theorem health_response_witness :
    ∃ body, app productionConfig sampleSnapshot { method := "GET", path := "/health" }
        = { status := 200, body := body } ∧
      body.field? "status" = some (.str "ok") ∧
      body.field? "environment" = some (.str "production") := by
  obtain ⟨body, happ, hstatus, _, _, _, _, _, _, _, _, _, _, hmode, _⟩ :=
    health_response productionConfig sampleSnapshot
  exact ⟨body, happ, hstatus, hmode "production" rfl (by decide)⟩

/-- C9: two `GET /api/status` responses of one process (one configuration, two
process readings) both have status 200, the name "merge-guard-demo-backend",
the same three `endpoints` entries and the same four `features`; they agree on
every field other than `timestamp`, which carries the clock reading of its own
request. -/
theorem status_responses_agree (cfg : Config) (s1 s2 : Snapshot) :
    ∃ b1 b2,
      app cfg s1 { method := "GET", path := "/api/status" } = { status := 200, body := b1 } ∧
      app cfg s2 { method := "GET", path := "/api/status" } = { status := 200, body := b2 } ∧
      b1.field? "name" = some (.str "merge-guard-demo-backend") ∧
      b1.field? "endpoints" = some (.obj [("health", .str "/health"),
        ("status", .str "/api/status"), ("info", .str "/api/info")]) ∧
      b1.field? "features" = some (.arr [.str "GitHub Safe Merge & Deploy Workflow",
        .str "Merge state validation", .str "Automated releases", .str "Health monitoring"]) ∧
      (∀ key, key ≠ "timestamp" → b1.field? key = b2.field? key) ∧
      b1.field? "timestamp" = some (.str s1.isoNow) ∧
      b2.field? "timestamp" = some (.str s2.isoNow) := by
  refine ⟨_, _, app_get_apiStatus cfg s1, app_get_apiStatus cfg s2, ?_, ?_, ?_, ?_, ?_, ?_⟩
  · simp [JsVal.field?, List.lookup]
  · simp [JsVal.field?, List.lookup]
  · simp [JsVal.field?, List.lookup]
  · intro key hkey
    have hk : (key == "timestamp") = false := by simpa using hkey
    simp only [JsVal.field?, List.lookup, hk]
  · simp [JsVal.field?, List.lookup]
  · simp [JsVal.field?, List.lookup]

/-- C9, instance: the two sample readings give different `timestamp` fields and
equal `name` fields. -/
theorem status_responses_agree_witness :
    (app productionConfig sampleSnapshot { method := "GET", path := "/api/status" }).body.field?
        "name"
      = (app productionConfig laterSnapshot { method := "GET", path := "/api/status" }).body.field?
        "name" := by
  obtain ⟨b1, b2, h1, h2, _, _, _, h, _, _⟩ :=
    status_responses_agree productionConfig sampleSnapshot laterSnapshot
  rw [h1, h2]
  exact h "name" (by decide)

/-- C10: `GET /` is answered with status 200 and the `endpoints` map of health,
status and info; `GET /api/status` returns the same map; a GET request to each
path of the map is answered with status 200; and each of the four entries of
the `availableEndpoints` list of the 404 body names a request that is answered
with status 200 and not by the 404 handler. -/
theorem advertised_routes_are_served (cfg : Config) (snap : Snapshot) (req : Request) :
    ∃ body endpoints entries,
      app cfg snap { method := "GET", path := "/" } = { status := 200, body := body } ∧
      body.field? "endpoints" = some (.obj endpoints) ∧
      endpoints = [("health", .str "/health"), ("status", .str "/api/status"),
        ("info", .str "/api/info")] ∧
      (app cfg snap { method := "GET", path := "/api/status" }).body.field? "endpoints"
        = some (.obj endpoints) ∧
      (∀ entry ∈ endpoints, ∃ path, entry.2 = .str path ∧
        (app cfg snap { method := "GET", path := path }).status = 200) ∧
      (notFoundHandler req).body.field? "availableEndpoints" = some (.arr entries) ∧
      entries.length = 4 ∧
      (∀ entry ∈ entries, ∃ target, parseEndpoint entry = some target ∧
        target.method = "GET" ∧
        (app cfg snap target).status = 200 ∧ app cfg snap target ≠ notFoundHandler target) := by
  refine ⟨_, _, [.str "GET /", .str "GET /health", .str "GET /api/status", .str "GET /api/info"],
    app_get_root cfg snap, ?_, rfl, ?_, ?_, ?_, rfl, ?_⟩
  · simp [JsVal.field?, List.lookup]
  · rw [app_get_apiStatus]
    simp [statusHandler, JsVal.field?, List.lookup]
  · intro entry hentry
    simp only [List.mem_cons, List.mem_singleton, List.not_mem_nil, or_false] at hentry
    rcases hentry with rfl | rfl | rfl
    · exact ⟨"/health", rfl, by rw [app_get_health]; rfl⟩
    · exact ⟨"/api/status", rfl, by rw [app_get_apiStatus]; rfl⟩
    · exact ⟨"/api/info", rfl, by rw [app_get_apiInfo]; rfl⟩
  · simp [notFoundHandler, JsVal.field?, List.lookup]
  · intro entry hentry
    simp only [List.mem_cons, List.mem_singleton, List.not_mem_nil, or_false] at hentry
    rcases hentry with rfl | rfl | rfl | rfl
    · refine ⟨{ method := "GET", path := "/" }, rfl, rfl, ?_, ?_⟩
      · rw [app_get_root]; rfl
      · rw [app_get_root]; intro h; simpa [rootHandler, notFoundHandler] using congrArg Response.status h
    · refine ⟨{ method := "GET", path := "/health" }, rfl, rfl, ?_, ?_⟩
      · rw [app_get_health]; rfl
      · rw [app_get_health]; intro h; simpa [healthHandler, notFoundHandler] using congrArg Response.status h
    · refine ⟨{ method := "GET", path := "/api/status" }, rfl, rfl, ?_, ?_⟩
      · rw [app_get_apiStatus]; rfl
      · rw [app_get_apiStatus]; intro h; simpa [statusHandler, notFoundHandler] using congrArg Response.status h
    · refine ⟨{ method := "GET", path := "/api/info" }, rfl, rfl, ?_, ?_⟩
      · rw [app_get_apiInfo]; rfl
      · rw [app_get_apiInfo]; intro h; simpa [infoHandler, notFoundHandler] using congrArg Response.status h

/-- C6: in production mode the error handler's body is the same three fields
for every error: `error`, the fixed `message` "Something went wrong" and
`timestamp`; it has no `stack` field; two errors handled at the same clock
reading get equal bodies, and at different readings their bodies agree on
every field other than `timestamp`.  In development mode `message` is the
error's message and `stack` is the error's trace. -/
theorem error_body_by_mode (cfg : Config) (s1 s2 : Snapshot) (e1 e2 : JsError) :
    (NODE_ENV cfg = "production" →
      (errorHandler cfg s1 e1).body = .obj [("error", .str "Internal Server Error"),
        ("message", .str "Something went wrong"), ("timestamp", .str s1.isoNow)] ∧
      (errorHandler cfg s1 e1).body.field? "message" = some (.str "Something went wrong") ∧
      (errorHandler cfg s1 e1).body.field? "stack" = none ∧
      (errorHandler cfg s1 e1).body = (errorHandler cfg s1 e2).body ∧
      (∀ key, key ≠ "timestamp" →
        (errorHandler cfg s1 e1).body.field? key = (errorHandler cfg s2 e2).body.field? key)) ∧
    (NODE_ENV cfg = "development" →
      (errorHandler cfg s1 e1).body.field? "message" = some e1.message ∧
      (errorHandler cfg s1 e1).body.field? "stack" = some e1.stack) := by
  constructor
  · intro hprod
    have hdev : ¬ NODE_ENV cfg = "development" := by rw [hprod]; decide
    refine ⟨?_, ?_, ?_, ?_, ?_⟩
    · simp [errorHandler, hdev]
    · simp [errorHandler, hdev, JsVal.field?, List.lookup]
    · simp [errorHandler, hdev, JsVal.field?, List.lookup]
    · simp [errorHandler, hdev]
    · intro key hkey
      have hk : (key == "timestamp") = false := by simpa using hkey
      simp only [errorHandler, hdev, if_false, JsVal.field?, List.lookup, hk]
  · intro hdev
    constructor <;> simp [errorHandler, hdev, JsVal.field?, List.lookup]

/-- C6, instance: with `NODE_ENV=production`, an error whose message and trace
hold a secret gets the fixed message and no `stack`; with `NODE_ENV` unset
(development) the same error's message is returned. -/
theorem error_body_by_mode_witness :
    NODE_ENV productionConfig = "production" ∧
    (errorHandler productionConfig sampleSnapshot secretError).body.field? "message"
      = some (.str "Something went wrong") ∧
    (errorHandler productionConfig sampleSnapshot secretError).body.field? "stack" = none ∧
    NODE_ENV developmentConfig = "development" ∧
    (errorHandler developmentConfig sampleSnapshot secretError).body.field? "message"
      = some (.str "db password is hunter2") :=
  have hprod := (error_body_by_mode productionConfig sampleSnapshot laterSnapshot
    secretError badRequestError).1 (by decide)
  have hdev := (error_body_by_mode developmentConfig sampleSnapshot laterSnapshot
    secretError badRequestError).2 (by decide)
  ⟨by decide, hprod.2.1, hprod.2.2.1, by decide, hdev.1⟩

/-- C7, as amended: for every error reaching the error handler, in either
mode, the body's `error` field is "Internal Server Error", and the status the
handler sets is the error's own `status` when the error carries a non-zero
one, and 500 when it carries none (or zero). -/
theorem error_status (cfg : Config) (snap : Snapshot) (err : JsError) :
    (errorHandler cfg snap err).body.field? "error" = some (.str "Internal Server Error") ∧
    (err.status = none → (errorHandler cfg snap err).status = 500) ∧
    (err.status = some 0 → (errorHandler cfg snap err).status = 500) ∧
    (∀ n, n ≠ 0 → err.status = some n → (errorHandler cfg snap err).status = n) := by
  refine ⟨?_, ?_, ?_, ?_⟩
  · by_cases hdev : NODE_ENV cfg = "development" <;>
      simp [errorHandler, hdev, JsVal.field?, List.lookup]
  · intro h; simp [errorHandler, h]
  · intro h; simp [errorHandler, h]
  · intro n hn h; simp [errorHandler, h, hn]

/-- C7, instance: an error without `status` gets 500. -/
theorem error_status_witness :
    secretError.status = none ∧
    (errorHandler productionConfig sampleSnapshot secretError).status = 500 :=
  ⟨rfl, (error_status productionConfig sampleSnapshot secretError).2.1 rfl⟩

/-- C7, counterexample to the claim as stated: an error carrying `status` 400
(as the body parser's errors do) is answered with status 400, not 500, in
production and in development mode. -/
theorem error_status_counterexample :
    (errorHandler productionConfig sampleSnapshot badRequestError).status = 400 ∧
    (errorHandler developmentConfig sampleSnapshot badRequestError).status = 400 := by
  constructor <;> rfl


/-! ## Properties of the client -/

theorem responseOk_iff (status : Nat) : responseOk status = true ↔ 200 ≤ status ∧ status ≤ 299 := by
  simp [responseOk]

theorem httpError_ne_empty (status : Nat) : "HTTP error! status: " ++ toString status ≠ "" := by
  intro h
  have := congrArg String.length h
  simp only [String.length_append] at this
  have hlen : "HTTP error! status: ".length = 20 := by decide
  have hzero : "".length = 0 := by decide
  omega

theorem fetchBackendStatus_ok (s : AppState) (status : Nat) (data : JsVal)
    (h1 : 200 ≤ status) (h2 : status ≤ 299) :
    fetchBackendStatus (.responded status (.ok data)) s
      = { backendStatus := data, loading := .bool false, error := .null } := by
  have hok : responseOk status = true := (responseOk_iff status).mpr ⟨h1, h2⟩
  simp [fetchBackendStatus, fetchTry, hok]

theorem fetchBackendStatus_rejected (s : AppState) (message : String) :
    fetchBackendStatus (.rejected message) s
      = { backendStatus := s.backendStatus, loading := .bool false, error := .str message } := by
  simp [fetchBackendStatus, fetchTry]

theorem fetchBackendStatus_not_ok (s : AppState) (status : Nat) (json : Except String JsVal)
    (h : ¬ (200 ≤ status ∧ status ≤ 299)) :
    fetchBackendStatus (.responded status json) s
      = { backendStatus := s.backendStatus, loading := .bool false,
          error := .str ("HTTP error! status: " ++ toString status) } := by
  have hok : responseOk status = false := by
    rw [← Bool.not_eq_true, responseOk_iff]; exact h
  simp [fetchBackendStatus, fetchTry, hok]

theorem fetchBackendStatus_parse_error (s : AppState) (status : Nat) (message : String)
    (h1 : 200 ≤ status) (h2 : status ≤ 299) :
    fetchBackendStatus (.responded status (.error message)) s
      = { backendStatus := s.backendStatus, loading := .bool false, error := .str message } := by
  have hok : responseOk status = true := (responseOk_iff status).mpr ⟨h1, h2⟩
  simp [fetchBackendStatus, fetchTry, hok]

/-- C3: one run of `fetchBackendStatus`, from any prior state `s`, ends in a
state fixed by the outcome.  A 2xx response whose body parses to `data` leaves
report `data`, error `null`, loading `false`.  A rejected fetch, a status
outside 200-299 and a body that fails to parse each leave the previous report
untouched, loading `false`, and as error the failure's message, which for a
status `N` outside 200-299 is "HTTP error! status: N". -/
theorem fetch_cycle_final_state (s : AppState) :
    (∀ status data, 200 ≤ status → status ≤ 299 →
      fetchBackendStatus (.responded status (.ok data)) s
        = { backendStatus := data, loading := .bool false, error := .null }) ∧
    (∀ message,
      fetchBackendStatus (.rejected message) s
        = { backendStatus := s.backendStatus, loading := .bool false, error := .str message }) ∧
    (∀ status json, ¬ (200 ≤ status ∧ status ≤ 299) →
      fetchBackendStatus (.responded status json) s
        = { backendStatus := s.backendStatus, loading := .bool false,
            error := .str ("HTTP error! status: " ++ toString status) }) ∧
    (∀ status message, 200 ≤ status → status ≤ 299 →
      fetchBackendStatus (.responded status (.error message)) s
        = { backendStatus := s.backendStatus, loading := .bool false, error := .str message }) := by
  exact ⟨fetchBackendStatus_ok s, fetchBackendStatus_rejected s, fetchBackendStatus_not_ok s,
    fetchBackendStatus_parse_error s⟩

/-- C3, instance: from the state holding the sample report, a 200 response
whose body holds version 2.0.0 replaces the report, and a 503 response
keeps it and sets the error text "HTTP error! status: 503". -/
theorem fetch_cycle_final_state_witness :
    fetchBackendStatus (.responded 200 (.ok (.obj [("version", .str "2.0.0")]))) reportHeld
      = { backendStatus := .obj [("version", .str "2.0.0")], loading := .bool false,
          error := .null } ∧
    fetchBackendStatus (.responded 503 (.ok .null)) reportHeld
      = { backendStatus := sampleReport, loading := .bool false,
          error := .str "HTTP error! status: 503" } :=
  ⟨(fetch_cycle_final_state reportHeld).1 200 _ (by decide) (by decide),
   (fetch_cycle_final_state reportHeld).2.2.1 503 _ (by decide)⟩

/-- A property read on a truthy value does not throw. -/
theorem getProp_of_truthy (v : JsVal) (key : String) (h : v.truthy = true) :
    ∃ x, v.getProp key = .ok x := by
  cases v <;> simp [JsVal.getProp, JsVal.truthy] at h ⊢

theorem VersionInfo_loading (status loading error : JsVal) (hl : loading.truthy = true) :
    VersionInfo status loading error = .ok .loadingPlaceholder := by
  simp [VersionInfo, hl]

theorem VersionInfo_error (status loading error : JsVal) (hl : loading.truthy = false)
    (he : error.truthy = true) :
    (error.validChild = true → VersionInfo status loading error = .ok (.errorBanner error)) ∧
    (error.validChild = false → ∃ thrown, VersionInfo status loading error = .error thrown) := by
  constructor <;> intro hc <;> simp [VersionInfo, hl, he, reactChild, hc, bind, Except.bind]

theorem VersionInfo_unavailable (status loading error : JsVal) (hl : loading.truthy = false)
    (he : error.truthy = false) (hs : status.truthy = false) :
    VersionInfo status loading error = .ok .unavailable := by
  simp [VersionInfo, hl, he, hs]

theorem VersionInfo_report (status loading error version environment timestamp : JsVal)
    (hl : loading.truthy = false) (he : error.truthy = false) (hs : status.truthy = true)
    (hv : status.getProp "version" = .ok version)
    (henv : status.getProp "environment" = .ok environment)
    (ht : status.getProp "timestamp" = .ok timestamp) :
    (timestamp.convertible = true → (version.or (.str "0.1.0")).validChild = true →
      (environment.or (.str "development")).validChild = true →
      VersionInfo status loading error
        = .ok (.report (version.or (.str "0.1.0")) (version.or (.str "0.1.0"))
            (environment.or (.str "development")) timestamp)) ∧
    (timestamp.convertible = false ∨ (version.or (.str "0.1.0")).validChild = false ∨
      (environment.or (.str "development")).validChild = false →
      ∃ thrown, VersionInfo status loading error = .error thrown) := by
  constructor
  · intro h1 h2 h3
    simp [VersionInfo, hl, he, hs, hv, henv, ht, reactChild, formatBuildTime, h1, h2, h3, bind,
      Except.bind]
  · intro h
    by_cases h1 : timestamp.convertible = true
    · by_cases h2 : (version.or (.str "0.1.0")).validChild = true
      · have h3 : (environment.or (.str "development")).validChild = false := by
          rcases h with h | h | h
          · simp [h1] at h
          · simp [h2] at h
          · exact h
        simp [VersionInfo, hl, he, hs, hv, henv, ht, reactChild, formatBuildTime, h1, h2, h3,
          bind, Except.bind]
      · simp [VersionInfo, hl, he, hs, hv, henv, ht, reactChild, formatBuildTime, h1, h2, bind,
          Except.bind]
    · simp [VersionInfo, hl, he, hs, hv, henv, ht, reactChild, formatBuildTime, h1, bind,
        Except.bind]

/-- C4, as amended: for all props (JSON values, `undefined`, non-finite
numbers), `VersionInfo` renders exactly one of four views, or rendering
throws, by this precedence.  When `loading` is truthy: the loading
placeholder, whatever `status` and `error` are.  Otherwise, when `error` is
truthy (for a string: non-empty): the error banner carrying `error`, unless
`error` is or holds a plain object, on which React throws.  Otherwise, when
`status` is falsy (absent, `null`, `false`, `0`, `NaN` or the empty string):
the "Version info unavailable" placeholder.  Otherwise: the rows of the
report, built from `status.version`, `status.environment` and
`status.timestamp`, unless the version or the environment is or holds a plain
object or the timestamp does not convert to a primitive, and then rendering
throws. -/
theorem VersionInfo_precedence (status loading error : JsVal) :
    (loading.truthy = true → VersionInfo status loading error = .ok .loadingPlaceholder) ∧
    (loading.truthy = false → error.truthy = true → error.validChild = true →
      VersionInfo status loading error = .ok (.errorBanner error)) ∧
    (loading.truthy = false → error.truthy = true → error.validChild = false →
      ∃ thrown, VersionInfo status loading error = .error thrown) ∧
    (loading.truthy = false → error.truthy = false → status.truthy = false →
      VersionInfo status loading error = .ok .unavailable) ∧
    (loading.truthy = false → error.truthy = false → status.truthy = true →
      ∃ version environment timestamp,
        status.getProp "version" = .ok version ∧
        status.getProp "environment" = .ok environment ∧
        status.getProp "timestamp" = .ok timestamp ∧
        (timestamp.convertible = true → (version.or (.str "0.1.0")).validChild = true →
          (environment.or (.str "development")).validChild = true →
          VersionInfo status loading error
            = .ok (.report (version.or (.str "0.1.0")) (version.or (.str "0.1.0"))
                (environment.or (.str "development")) timestamp)) ∧
        (timestamp.convertible = false ∨ (version.or (.str "0.1.0")).validChild = false ∨
          (environment.or (.str "development")).validChild = false →
          ∃ thrown, VersionInfo status loading error = .error thrown)) := by
  refine ⟨VersionInfo_loading status loading error, ?_, ?_,
    VersionInfo_unavailable status loading error, ?_⟩
  · intro hl he
    exact (VersionInfo_error status loading error hl he).1
  · intro hl he
    exact (VersionInfo_error status loading error hl he).2
  · intro hl he hs
    obtain ⟨version, hv⟩ := getProp_of_truthy status "version" hs
    obtain ⟨environment, henv⟩ := getProp_of_truthy status "environment" hs
    obtain ⟨timestamp, ht⟩ := getProp_of_truthy status "timestamp" hs
    exact ⟨version, environment, timestamp, hv, henv, ht,
      VersionInfo_report status loading error version environment timestamp hl he hs hv henv ht⟩

/-- C4, instance: the sample report, not loading, no error: the report rows
show its version and environment; with `loading` true the placeholder is
shown; with an error text the banner; without report the "unavailable"
placeholder. -/
theorem VersionInfo_precedence_witness :
    VersionInfo sampleReport (.bool false) .null
      = .ok (.report (.str "1.2.3") (.str "1.2.3") (.str "production") (.num 1700000000000)) ∧
    VersionInfo sampleReport (.bool true) (.str "Failed to fetch") = .ok .loadingPlaceholder ∧
    VersionInfo sampleReport (.bool false) (.str "Failed to fetch")
      = .ok (.errorBanner (.str "Failed to fetch")) ∧
    VersionInfo .null (.bool false) .null = .ok .unavailable := by
  refine ⟨?_, (VersionInfo_precedence _ _ _).1 rfl, (VersionInfo_precedence _ _ _).2.1 rfl rfl rfl,
    (VersionInfo_precedence _ _ _).2.2.2.1 rfl rfl rfl⟩
  obtain ⟨v, e, t, hv, he, ht, h, _⟩ :=
    (VersionInfo_precedence sampleReport (.bool false) .null).2.2.2.2 rfl rfl rfl
  cases hv; cases he; cases ht
  exact h rfl rfl rfl

/-- C4, counterexample to the claim as stated.  With the parsed body `0` as
`status`, a report has been received, nothing is loading and there is no
error, and the "Version info unavailable" placeholder is returned, not the
report's rows.  With a report whose `version` is an object, and with an
`error` that is a plain object, React throws and none of the four views is
rendered. -/
theorem VersionInfo_claim_counterexample :
    VersionInfo (.num 0) (.bool false) .null = .ok .unavailable ∧
    VersionInfo nestedVersionReport (.bool false) .null
      = .error "Objects are not valid as a React child" ∧
    VersionInfo sampleReport (.bool false) (.obj [])
      = .error "Objects are not valid as a React child" := by
  refine ⟨?_, rfl, rfl⟩
  simp [VersionInfo, JsVal.truthy]

/-- A run of `fetchBackendStatus` with no other run in between is its start
followed by its settling. -/
theorem fetchBackendStatus_eq (outcome : FetchOutcome) (s : AppState) :
    fetchBackendStatus outcome s = fetchSettle outcome (fetchStart s) := by
  cases outcome with
  | rejected message => simp [fetchBackendStatus, fetchTry, fetchSettle, fetchStart]
  | responded status json =>
    cases hok : responseOk status <;> cases json <;>
      simp [fetchBackendStatus, fetchTry, fetchSettle, fetchStart, hok]

/-- C5, as amended: what `App` shows through `VersionInfo` once a cycle has
completed, for a cycle that runs from a prior state `s` with no update of
another cycle in between (it is `fetchSettle` right after `fetchStart`).
After a failed cycle whose message is non-empty (a rejected fetch, a body that
fails to parse) and after every response with a status outside 200-299, the
error banner with the failure's message is shown, whatever report `s` holds,
and the report is left as it was, so none is set by a failed first cycle.
After a successful cycle whose parsed body `data` is truthy, the error is
`null`, and the rows of `data` are rendered when its version and environment
are valid React children (neither is nor holds a plain object) and its
timestamp converts to a primitive. -/
theorem view_after_cycle (s : AppState) :
    (∀ outcome, fetchBackendStatus outcome s = fetchSettle outcome (fetchStart s)) ∧
    (∀ message, message ≠ "" →
      App (fetchBackendStatus (.rejected message) s) = .ok (.errorBanner (.str message))) ∧
    (∀ status json, ¬ (200 ≤ status ∧ status ≤ 299) →
      App (fetchBackendStatus (.responded status json) s)
        = .ok (.errorBanner (.str ("HTTP error! status: " ++ toString status)))) ∧
    (∀ status message, 200 ≤ status → status ≤ 299 → message ≠ "" →
      App (fetchBackendStatus (.responded status (.error message)) s)
        = .ok (.errorBanner (.str message))) ∧
    (∀ message, (fetchBackendStatus (.rejected message) AppState.initial).backendStatus = .null) ∧
    (∀ status json, ¬ (200 ≤ status ∧ status ≤ 299) →
      (fetchBackendStatus (.responded status json) AppState.initial).backendStatus = .null) ∧
    (∀ status message, 200 ≤ status → status ≤ 299 →
      (fetchBackendStatus (.responded status (.error message)) AppState.initial).backendStatus
        = .null) ∧
    (∀ status data, 200 ≤ status → status ≤ 299 → data.truthy = true →
      (fetchBackendStatus (.responded status (.ok data)) s).error = .null ∧
      ∃ version environment timestamp,
        data.getProp "version" = .ok version ∧
        data.getProp "environment" = .ok environment ∧
        data.getProp "timestamp" = .ok timestamp ∧
        (timestamp.convertible = true → (version.or (.str "0.1.0")).validChild = true →
          (environment.or (.str "development")).validChild = true →
          App (fetchBackendStatus (.responded status (.ok data)) s)
            = .ok (.report (version.or (.str "0.1.0")) (version.or (.str "0.1.0"))
                (environment.or (.str "development")) timestamp))) := by
  have hbanner : ∀ (r : JsVal) (message : String), message ≠ "" →
      App { backendStatus := r, loading := .bool false, error := .str message }
        = .ok (.errorBanner (.str message)) := by
    intro r message hne
    exact (VersionInfo_error r (.bool false) (.str message) rfl (by simp [JsVal.truthy, hne])).1
      (by simp [JsVal.validChild])
  have hok := fetchBackendStatus_ok s
  have hrej := fetchBackendStatus_rejected s
  have hbad := fetchBackendStatus_not_ok s
  have hparse := fetchBackendStatus_parse_error s
  have hrej0 := fetchBackendStatus_rejected AppState.initial
  have hbad0 := fetchBackendStatus_not_ok AppState.initial
  have hparse0 := fetchBackendStatus_parse_error AppState.initial
  refine ⟨fun outcome => fetchBackendStatus_eq outcome s, ?_, ?_, ?_, ?_, ?_, ?_, ?_⟩
  · intro message hne
    rw [hrej]
    exact hbanner _ _ hne
  · intro status json h
    rw [hbad status json h]
    exact hbanner _ _ (httpError_ne_empty status)
  · intro status message h1 h2 hne
    rw [hparse status message h1 h2]
    exact hbanner _ _ hne
  · intro message
    rw [hrej0]
    rfl
  · intro status json h
    rw [hbad0 status json h]
    rfl
  · intro status message h1 h2
    rw [hparse0 status message h1 h2]
    rfl
  · intro status data h1 h2 hdata
    rw [hok status data h1 h2]
    refine ⟨rfl, ?_⟩
    obtain ⟨version, hv⟩ := getProp_of_truthy data "version" hdata
    obtain ⟨environment, henv⟩ := getProp_of_truthy data "environment" hdata
    obtain ⟨timestamp, ht⟩ := getProp_of_truthy data "timestamp" hdata
    exact ⟨version, environment, timestamp, hv, henv, ht,
      (VersionInfo_report data (.bool false) .null version environment timestamp rfl rfl hdata
        hv henv ht).1⟩

/-- C5, instance: with the sample report held, a rejected fetch with message
"Failed to fetch" shows the error banner; from the state left by a failed
first cycle, a 200 response carrying the sample report clears the error and
renders the report's rows. -/
theorem view_after_cycle_witness :
    App (fetchBackendStatus (.rejected "Failed to fetch") reportHeld)
      = .ok (.errorBanner (.str "Failed to fetch")) ∧
    (fetchBackendStatus (.responded 200 (.ok sampleReport)) errorHeld).error = .null ∧
    App (fetchBackendStatus (.responded 200 (.ok sampleReport)) errorHeld)
      = .ok (.report (.str "1.2.3") (.str "1.2.3") (.str "production") (.num 1700000000000)) := by
  have hsuccess := (view_after_cycle errorHeld).2.2.2.2.2.2.2 200 sampleReport (by decide)
    (by decide) rfl
  refine ⟨(view_after_cycle reportHeld).2.1 "Failed to fetch" (by decide), hsuccess.1, ?_⟩
  obtain ⟨v, e, t, hv, he, ht, h⟩ := hsuccess.2
  cases hv; cases he; cases ht
  exact h rfl rfl rfl

/-- C5, counterexample to the claim as stated: three successful cycles after
which the received report's rows are not rendered.  A 200 response whose body
parses to `null` leaves the "unavailable" placeholder.  A 200 response whose
body has an object as `version` makes React throw, and nothing is shown.  And
when a cycle starts while an earlier one is still waiting, the earlier one
then fails and the later one then succeeds, the later cycle completes last and
the view still shows the banner of the earlier failure. -/
theorem view_claim_counterexample :
    App (fetchBackendStatus (.responded 200 (.ok .null)) errorHeld) = .ok .unavailable ∧
    App (fetchBackendStatus (.responded 200 (.ok nestedVersionReport)) errorHeld)
      = .error "Objects are not valid as a React child" ∧
    App (fetchSettle (.responded 200 (.ok sampleReport))
        (fetchSettle (.rejected "Failed to fetch") (fetchStart (fetchStart reportHeld))))
      = .ok (.errorBanner (.str "Failed to fetch")) := by
  refine ⟨rfl, rfl, rfl⟩

/-! ### The polling timer -/

theorem elapse_add (a b : Nat) (p : Page) : elapse (a + b) p = elapse b (elapse a p) := by
  induction a generalizing p with
  | zero => simp [elapse]
  | succ a ih =>
    rw [Nat.succ_add]
    simp only [elapse]
    exact ih (tick p)

/-- With no active timer, time passes without any call of
`fetchBackendStatus`. -/
theorem elapse_no_intervals (ms : Nat) (p : Page) (h : p.intervals = []) :
    (elapse ms p).intervals = [] ∧ (elapse ms p).fetches = p.fetches := by
  induction ms generalizing p with
  | zero => exact ⟨h, rfl⟩
  | succ ms ih =>
    simp only [elapse]
    have ht : (tick p).intervals = [] := by simp [tick, h]
    have hf : (tick p).fetches = p.fetches := by simp [tick, h]
    rw [← hf]
    exact ih (tick p) ht

/-- Time passing changes no timer's id. -/
theorem elapse_ids (ms : Nat) (p : Page) (id : Nat) (h : ∀ t ∈ p.intervals, t.id = id) :
    ∀ t ∈ (elapse ms p).intervals, t.id = id := by
  induction ms generalizing p with
  | zero => exact h
  | succ ms ih =>
    simp only [elapse]
    apply ih
    intro t ht
    simp only [tick, List.mem_map] at ht
    obtain ⟨u, hu, rfl⟩ := ht
    split <;> exact h u hu

/-- A single timer that is not yet due does not fire. -/
theorem elapse_before_due (ms : Nat) (p : Page) (t : Interval) (h : p.intervals = [t])
    (hdue : p.now + ms < t.due) :
    elapse ms p = { p with now := p.now + ms } := by
  induction ms generalizing p with
  | zero => rfl
  | succ ms ih =>
    simp only [elapse]
    have hnot : ¬ t.due ≤ p.now + 1 := by omega
    have htick : tick p = { p with now := p.now + 1 } := by
      simp [tick, h, hnot]
    rw [htick, ih { p with now := p.now + 1 } h (by simp; omega)]
    simp
    omega

/-- A single timer first due one delay from now fires exactly once during
that delay and is then due one delay later. -/
theorem elapse_one_delay (p : Page) (id delay : Nat) (hpos : 0 < delay)
    (h : p.intervals = [{ id := id, delay := delay, due := p.now + delay }]) :
    elapse delay p
      = { p with now := p.now + delay,
                 intervals := [{ id := id, delay := delay, due := p.now + delay + delay }],
                 fetches := p.fetches + 1 } := by
  obtain ⟨d, rfl⟩ : ∃ d, delay = d + 1 := ⟨delay - 1, by omega⟩
  rw [elapse_add, elapse_before_due d p _ h (by simp)]
  have hle : p.now + (d + 1) ≤ p.now + d + 1 := by omega
  simp [elapse, tick, h, List.filter, hle]
  omega

/-- A single timer first due one delay from now fires exactly `k` times during
`k` delays. -/
theorem elapse_delays (k : Nat) (p : Page) (id delay : Nat) (hpos : 0 < delay)
    (h : p.intervals = [{ id := id, delay := delay, due := p.now + delay }]) :
    (elapse (k * delay) p).fetches = p.fetches + k := by
  induction k generalizing p with
  | zero => simp [elapse]
  | succ k ih =>
    rw [Nat.succ_mul, Nat.add_comm, elapse_add, elapse_one_delay p id delay hpos h, ih]
    · simp; omega
    · rfl

/-- C8: on a page with no other timer, mounting `App` issues one fetch and
starts exactly one repeating timer, of 30000 ms, which issues one further
fetch every 30000 ms while `App` stays mounted; the cleanup run at unmount,
after any time `before`, cancels that timer, leaving none active; and from
then on no fetch is issued, however long (`after`) the page keeps running. -/
theorem no_fetch_after_unmount (p : Page) (h : p.intervals = []) (before after : Nat) :
    (mount p).2.fetches = p.fetches + 1 ∧
    (mount p).2.intervals
      = [{ id := (mount p).1, delay := 30000, due := p.now + 30000 }] ∧
    (∀ k, (elapse (k * 30000) (mount p).2).fetches = p.fetches + 1 + k) ∧
    (unmount (mount p).1 (elapse before (mount p).2)).intervals = [] ∧
    (elapse after (unmount (mount p).1 (elapse before (mount p).2))).fetches
      = (unmount (mount p).1 (elapse before (mount p).2)).fetches := by
  have hint : (mount p).2.intervals
      = [{ id := (mount p).1, delay := 30000, due := (mount p).2.now + 30000 }] := by
    simp [mount, setInterval, h]
  have hcleared : (unmount (mount p).1 (elapse before (mount p).2)).intervals = [] := by
    have hids := elapse_ids before (mount p).2 (mount p).1 (by rw [hint]; simp)
    simp only [unmount, clearInterval, List.filter_eq_nil_iff]
    intro t ht
    simp [hids t ht]
  refine ⟨rfl, hint, ?_, hcleared, ?_⟩
  · intro k
    rw [elapse_delays k (mount p).2 (mount p).1 30000 (by decide) hint]
    rfl
  · exact (elapse_no_intervals after _ hcleared).2

/-- C8, instance: on a fresh page, `App` stays mounted for 60000 ms, in which
the timer issues two fetches after the initial one; it is then unmounted, and
the 90000 ms that follow add no fetch. -/
theorem no_fetch_after_unmount_witness :
    freshPage.intervals = [] ∧
    (elapse (2 * 30000) (mount freshPage).2).fetches = freshPage.fetches + 1 + 2 ∧
    (elapse 90000 (unmount (mount freshPage).1 (elapse 60000 (mount freshPage).2))).fetches
      = (unmount (mount freshPage).1 (elapse 60000 (mount freshPage).2)).fetches :=
  have h := no_fetch_after_unmount freshPage rfl 60000 90000
  ⟨rfl, h.2.2.1 2, h.2.2.2.2⟩

end StatusPoc
